import Mathlib

/-!
Verification of the liquid-glass component editor
(`src/components/SavedDesignsManager.tsx`).

The file shallowly embeds the two algorithmic layers of the component:

* the WebGL fragment shader emitted by `generateComponentCode` (shape SDFs,
  blur sampler, distortion, chromatic aberration, saturation, shadow and the
  final composite in `main`), modelled over `ℚ`.  The transcendental
  primitives the shader calls (`sqrt`, `exp`, `atan`) are abstracted as a
  record `GMath` of rational-valued functions; theorems quantify over the
  record and state the properties of the primitives they actually need as
  hypotheses.  Divisions (`/` on floats, `normalize`) are embedded as
  checked operations returning `Option ℚ`: a `none` result marks the
  division-by-zero / NaN behaviour that the GLSL specification leaves
  undefined.
* the design-list management around the shader: the `localStorage` load
  effect, `handleSaveDesign`, `handleDeleteDesign`, and the literal values
  interpolated into the exported component source.
-/

namespace Glass

/-- The transcendental primitives used by the shader, abstracted as
rational-valued functions.  `atan2 y x` stands for GLSL `atan(y, x)`. -/
structure GMath where
  sqrt : ℚ → ℚ
  exp : ℚ → ℚ
  atan2 : ℚ → ℚ → ℚ

/-- 2D vector, mirroring GLSL `vec2`. -/
abbrev Vec2 := ℚ × ℚ

/-- RGB color / 3D vector, mirroring GLSL `vec3`. -/
abbrev Vec3 := ℚ × ℚ × ℚ

/-- Checked division: GLSL division by zero is undefined (`Inf`/`NaN`), so it
is embedded as `none`. -/
def qdiv (a b : ℚ) : Option ℚ := if b = 0 then none else some (a / b)

/-- GLSL `clamp(x, lo, hi) = min(max(x, lo), hi)`. -/
def qclamp (x lo hi : ℚ) : ℚ := min (max x lo) hi

/-- GLSL `mix(a, b, t) = a*(1-t) + b*t`. -/
def qmix (a b t : ℚ) : ℚ := a * (1 - t) + b * t

/-- GLSL `sign`. -/
def qsign (x : ℚ) : ℚ := if 0 < x then 1 else if x < 0 then -1 else 0

/-- GLSL `int(float)` conversion: truncation toward zero. -/
def qtrunc (q : ℚ) : ℤ := if q < 0 then ⌈q⌉ else ⌊q⌋

/-- GLSL `length(vec2)` in terms of the abstract square root. -/
def vlength (M : GMath) (v : Vec2) : ℚ := M.sqrt (v.1 * v.1 + v.2 * v.2)

/-- GLSL `normalize(vec2) = v / length(v)`; undefined (`none`) when the
length is zero, matching the GLSL undefinedness on the zero vector. -/
def vnormalize (M : GMath) (v : Vec2) : Option Vec2 :=
  if vlength M v = 0 then none else some (v.1 / vlength M v, v.2 / vlength M v)

/-- Componentwise `vec3` sum. -/
def v3add (a b : Vec3) : Vec3 := (a.1 + b.1, a.2.1 + b.2.1, a.2.2 + b.2.2)

/-- Componentwise `vec3` product (used for the tint multiply). -/
def v3mul (a b : Vec3) : Vec3 := (a.1 * b.1, a.2.1 * b.2.1, a.2.2 * b.2.2)

/-- Scalar times `vec3`. -/
def v3scale (c : ℚ) (a : Vec3) : Vec3 := (c * a.1, c * a.2.1, c * a.2.2)

/-- GLSL `mix` on `vec3` with scalar interpolant, componentwise. -/
def v3mix (a b : Vec3) (t : ℚ) : Vec3 :=
  (qmix a.1 b.1 t, qmix a.2.1 b.2.1 t, qmix a.2.2 b.2.2 t)

/-- The shader's `#define PI 3.141592653589793` — a rational literal. -/
def PI : ℚ := 3.141592653589793

/-- `float sdRoundedRect(vec2 pos, vec2 halfSize, float radius)`:
`q = abs(pos) - halfSize + radius; return min(max(q.x,q.y),0.0) +
length(max(q,0.0)) - radius`. -/
def sdRoundedRect (M : GMath) (pos halfSize : Vec2) (radius : ℚ) : ℚ :=
  let q : Vec2 := (|pos.1| - halfSize.1 + radius, |pos.2| - halfSize.2 + radius)
  min (max q.1 q.2) 0 + vlength M (max q.1 0, max q.2 0) - radius

/-- `float sdCircle(vec2 pos, float radius) = length(pos) - radius`. -/
def sdCircle (M : GMath) (pos : Vec2) (radius : ℚ) : ℚ :=
  vlength M pos - radius

/-- `float sdStar(vec2 pos, float outerRadius, float innerRadius, int points)`:
polar-form star SDF.  The two interior divisions (by `segmentAngle` and by
`halfSegment`) are checked; they are zero only when `points` is zero. -/
def sdStar (M : GMath) (pos : Vec2) (outerRadius innerRadius : ℚ)
    (points : ℤ) : Option ℚ := do
  let angle := M.atan2 pos.2 pos.1
  let radius := vlength M pos
  let segmentAngle ← qdiv (2 * PI) (points : ℚ)
  let s ← qdiv angle segmentAngle
  let segment : ℚ := (⌊s + 0.5⌋ : ℤ)
  let segmentStart := segment * segmentAngle
  let localAngle := angle - segmentStart
  let halfSegment := segmentAngle * 0.5
  let t ← qdiv |localAngle| halfSegment
  let targetRadius := qmix outerRadius innerRadius t
  return radius - targetRadius

/-- `float sdHexagon(vec2 pos, float size)`: flat-top hexagon SDF with the
constant `k = vec3(-0.866025404, 0.5, 0.577350269)`. -/
def sdHexagon (M : GMath) (pos : Vec2) (size : ℚ) : ℚ :=
  let kx : ℚ := -0.866025404
  let ky : ℚ := 0.5
  let kz : ℚ := 0.577350269
  let p1 : Vec2 := (|pos.1|, |pos.2|)
  let d := min (kx * p1.1 + ky * p1.2) 0
  let p2 : Vec2 := (p1.1 - 2 * d * kx, p1.2 - 2 * d * ky)
  let p3 : Vec2 := (p2.1 - qclamp p2.1 (-(kz * size)) (kz * size), p2.2 - size)
  vlength M p3 * qsign p3.2

/-- `float sdDonut(vec2 pos, float outerRadius, float thickness)`:
`innerRadius = outerRadius*(1-thickness); d = length(pos);
return max(d - outerRadius, innerRadius - d)`. -/
def sdDonut (M : GMath) (pos : Vec2) (outerRadius thickness : ℚ) : ℚ :=
  let innerRadius := outerRadius * (1 - thickness)
  let d := vlength M pos
  max (d - outerRadius) (innerRadius - d)

/-- The shader uniforms set by the exported component's render loop. -/
structure Uniforms where
  resolution : Vec2
  mouse : Vec2
  width : ℚ
  height : ℚ
  tint : Vec3
  saturation : ℚ
  distortion : ℚ
  blur : ℚ
  cornerRadius : ℚ
  chromaticAberration : ℚ
  shape : ℚ
  donutThickness : ℚ
  starPoints : ℚ
  starInnerRadius : ℚ
  shadowIntensity : ℚ
  shadowOffset : Vec2
  shadowBlur : ℚ
  glassMode : ℚ

/-- `float getShapeSDF(vec2 pos)`: threshold dispatch on the `u_shape`
uniform (`< 0.5`, `< 1.5`, `< 2.5`, `< 3.5`, else). -/
def getShapeSDF (M : GMath) (u : Uniforms) (pos : Vec2) : Option ℚ :=
  if u.shape < 0.5 then
    some (sdRoundedRect M pos (u.width, u.height) u.cornerRadius)
  else if u.shape < 1.5 then
    some (sdCircle M pos (min u.width u.height))
  else if u.shape < 2.5 then
    let outerRadius := min u.width u.height * 0.8
    let innerRadius := outerRadius * u.starInnerRadius
    sdStar M pos outerRadius innerRadius (qtrunc u.starPoints)
  else if u.shape < 3.5 then
    some (sdHexagon M pos (min u.width u.height * 0.8))
  else
    some (sdDonut M pos (min u.width u.height * 0.8) u.donutThickness)

/-- `vec3 saturate(vec3 color, float factor)`:
`gray = dot(color, vec3(0.299, 0.587, 0.114)); return mix(vec3(gray), color,
factor)`. -/
def saturateColor (color : Vec3) (factor : ℚ) : Vec3 :=
  let gray := color.1 * 0.299 + color.2.1 * 0.587 + color.2.2 * 0.114
  v3mix (gray, gray, gray) color factor

/-- The 25 `(x, y)` loop offsets of `sampleBlurred`, in source loop order
(`x` outer from -2 to 2, `y` inner from -2 to 2). -/
def blurOffsets : List (ℚ × ℚ) :=
  [(-2, -2), (-2, -1), (-2, 0), (-2, 1), (-2, 2),
   (-1, -2), (-1, -1), (-1, 0), (-1, 1), (-1, 2),
   (0, -2), (0, -1), (0, 0), (0, 1), (0, 2),
   (1, -2), (1, -1), (1, 0), (1, 1), (1, 2),
   (2, -2), (2, -1), (2, 0), (2, 1), (2, 2)]

/-- One iteration of the `sampleBlurred` loop body:
`offset = vec2(x,y) * blurAmount / u_resolution;
weight = exp(-(x*x + y*y) / (2.0 * blurAmount * blurAmount));
color += texture2D(u_texture, uv + offset).rgb * weight; total += weight`. -/
def blurTap (M : GMath) (res : Vec2) (tex : Vec2 → Vec3) (uv : Vec2)
    (blurAmount : ℚ) (acc : Vec3 × ℚ) (d : ℚ × ℚ) : Option (Vec3 × ℚ) := do
  let ox ← qdiv (d.1 * blurAmount) res.1
  let oy ← qdiv (d.2 * blurAmount) res.2
  let e ← qdiv (-(d.1 * d.1 + d.2 * d.2)) (2 * blurAmount * blurAmount)
  let weight := M.exp e
  let c := tex (uv.1 + ox, uv.2 + oy)
  return (v3add acc.1 (v3scale weight c), acc.2 + weight)

/-- `vec3 sampleBlurred(vec2 uv, float blurAmount)`: 5×5 Gaussian-weighted
tap blur, then `return color / total`. -/
def sampleBlurred (M : GMath) (res : Vec2) (tex : Vec2 → Vec3) (uv : Vec2)
    (blurAmount : ℚ) : Option Vec3 := do
  let ct ← blurOffsets.foldlM (blurTap M res tex uv blurAmount) ((0, 0, 0), 0)
  let total := ct.2
  if total = 0 then none
  else return (ct.1.1 / total, ct.1.2.1 / total, ct.1.2.2 / total)

/-- The distortion block of `main`:
`vec2 distortedUV = v_texCoord; if (u_distortion > 0.0) { grad = central
differences of getShapeSDF at ±2 px; grad = normalize(grad); offsetAmount =
pow(abs(normalizedInside), 12.0) * -0.05 * u_distortion; distortedUV += grad
* offsetAmount; }`. -/
def computeDistortedUV (M : GMath) (u : Uniforms) (centeredUV vTexCoord : Vec2)
    (normalizedInside : ℚ) : Option Vec2 :=
  if 0 < u.distortion then do
    let gx1 ← getShapeSDF M u (centeredUV.1 + 2, centeredUV.2)
    let gx2 ← getShapeSDF M u (centeredUV.1 - 2, centeredUV.2)
    let gy1 ← getShapeSDF M u (centeredUV.1, centeredUV.2 + 2)
    let gy2 ← getShapeSDF M u (centeredUV.1, centeredUV.2 - 2)
    let grad ← vnormalize M (gx1 - gx2, gy1 - gy2)
    let offsetAmount := |normalizedInside| ^ 12 * (-0.05) * u.distortion
    return (vTexCoord.1 + grad.1 * offsetAmount, vTexCoord.2 + grad.2 * offsetAmount)
  else
    some vTexCoord

/-- The chromatic-aberration block of `main` (executed when
`u_chromaticAberration > 0.0`): re-samples the red and blue channels offset
along the radial direction from the image center `vec2(0.5)`. -/
def applyChromaticAberration (M : GMath) (u : Uniforms) (tex : Vec2 → Vec3)
    (distortedUV : Vec2) (glassColor : Vec3) : Option Vec3 :=
  if 0 < u.chromaticAberration then do
    let dv : Vec2 := (distortedUV.1 - 0.5, distortedUV.2 - 0.5)
    let direction ← vnormalize M dv
    let dist := vlength M dv
    let aberration := u.chromaticAberration * dist * 0.01
    let r ← sampleBlurred M u.resolution tex
      (distortedUV.1 + direction.1 * aberration * 1.2,
       distortedUV.2 + direction.2 * aberration * 1.2) (u.blur * 3)
    let b ← sampleBlurred M u.resolution tex
      (distortedUV.1 - direction.1 * aberration * 0.8,
       distortedUV.2 - direction.2 * aberration * 0.8) (u.blur * 3)
    return (r.1, glassColor.2.1, b.2.2)
  else
    some glassColor

/-- The shadow block of `main` (executed when `u_shadowIntensity > 0.0`):
`shadowSdf = getShapeSDF(centeredUV - u_shadowOffset);
shadowMask = (1.0 - clamp(shadowSdf / u_shadowBlur, 0.0, 1.0)) *
u_shadowIntensity; bgColor = mix(bgColor, bgColor * (1.0 - shadowMask),
shadowMask)`. -/
def applyShadow (M : GMath) (u : Uniforms) (bgColor : Vec3)
    (centeredUV : Vec2) : Option Vec3 :=
  if 0 < u.shadowIntensity then do
    let shadowPos : Vec2 := (centeredUV.1 - u.shadowOffset.1, centeredUV.2 - u.shadowOffset.2)
    let shadowSdf ← getShapeSDF M u shadowPos
    let s ← qdiv shadowSdf u.shadowBlur
    let shadowMask := (1 - qclamp s 0 1) * u.shadowIntensity
    return v3mix bgColor (v3scale (1 - shadowMask) bgColor) shadowMask
  else
    some bgColor

/-- The `boxMask > 0.0` branch of `main`: distortion, blur, chromatic
aberration, saturation, tint, highlight, shadow, and the final
`mix(bgColor, glassColor, boxMask)`. -/
def glassBranch (M : GMath) (u : Uniforms) (tex : Vec2 → Vec3)
    (vTexCoord centeredUV : Vec2) (normalizedInside boxMask : ℚ)
    (bgColor : Vec3) : Option Vec3 := do
  let distortedUV ← computeDistortedUV M u centeredUV vTexCoord normalizedInside
  let glassColor ← sampleBlurred M u.resolution tex distortedUV (u.blur * 3)
  let glassColor ← applyChromaticAberration M u tex distortedUV glassColor
  let glassColor := saturateColor glassColor u.saturation
  let glassColor := v3mul glassColor u.tint
  let edgeBlendFactor := normalizedInside ^ 12
  let highlightAmount := qmix 0 0.3 (qclamp edgeBlendFactor 0 1)
  let glassColor := v3add glassColor (highlightAmount, highlightAmount, highlightAmount)
  let bgColor ← applyShadow M u bgColor centeredUV
  return v3mix bgColor glassColor boxMask

/-- `void main()` of the fragment shader: computes `centeredUV`, the SDF, the
background texel, `normalizedInside = sdf / u_height + 1.0`,
`boxMask = 1.0 - clamp(sdf, 0.0, 1.0)`, and either runs the glass branch
(`boxMask > 0.0`) or outputs the background texel unchanged. -/
def shaderMain (M : GMath) (u : Uniforms) (tex : Vec2 → Vec3)
    (vTexCoord : Vec2) : Option Vec3 := do
  let fragCoord : Vec2 := (vTexCoord.1 * u.resolution.1, vTexCoord.2 * u.resolution.2)
  let centeredUV : Vec2 := (fragCoord.1 - u.mouse.1, fragCoord.2 - u.mouse.2)
  let sdf ← getShapeSDF M u centeredUV
  let bgColor := tex vTexCoord
  let ni ← qdiv sdf u.height
  let normalizedInside := ni + 1
  let boxMask := 1 - qclamp sdf 0 1
  if 0 < boxMask then
    glassBranch M u tex vTexCoord centeredUV normalizedInside boxMask bgColor
  else
    return bgColor

/-- The five values of the `shape` union type of `ShaderParams`
(`'rectangle' | 'circle' | 'star' | 'hexagon' | 'donut'`). -/
inductive ShapeKind where
  | rectangle
  | circle
  | star
  | hexagon
  | donut
deriving DecidableEq

/-- The string stored in the `shape` field for each variant. -/
def shapeNameOf : ShapeKind → String
  | .rectangle => "rectangle"
  | .circle => "circle"
  | .star => "star"
  | .hexagon => "hexagon"
  | .donut => "donut"

/-- The array literal of `generateComponentCode`:
`['rectangle', 'circle', 'star', 'hexagon', 'donut']`. -/
def shapeNameList : List String :=
  ["rectangle", "circle", "star", "hexagon", "donut"]

/-- `const shapeValue = [...].indexOf(params.shape)` in
`generateComponentCode`. -/
def shapeValue (s : ShapeKind) : ℕ :=
  shapeNameList.indexOf (shapeNameOf s)

/-- The `glassMode: 'light' | 'dark'` field. -/
inductive GlassMode where
  | light
  | dark
deriving DecidableEq

/-- The string stored in the `glassMode` field. -/
def glassModeNameOf : GlassMode → String
  | .light => "light"
  | .dark => "dark"

/-- The `ShaderParams` interface of `SavedDesignsManager.tsx`, fields in
source order.  JavaScript numbers are modelled as `ℚ`. -/
structure ShaderParams where
  width : ℚ
  height : ℚ
  mouseX : ℚ
  mouseY : ℚ
  tintR : ℚ
  tintG : ℚ
  tintB : ℚ
  saturation : ℚ
  distortion : ℚ
  blur : ℚ
  text : String
  iconSize : ℚ
  iconColorR : ℚ
  iconColorG : ℚ
  iconColorB : ℚ
  glassMode : GlassMode
  shadowIntensity : ℚ
  shadowOffsetX : ℚ
  shadowOffsetY : ℚ
  shadowBlur : ℚ
  cornerRadius : ℚ
  chromaticAberration : ℚ
  shape : ShapeKind
  donutThickness : ℚ
  starPoints : ℚ
  starInnerRadius : ℚ
deriving DecidableEq

/-- The literal values that `generateComponentCode` interpolates into the
generated component source for a design's `ShaderParams`: the fields of the
emitted `params` object (with `shape` replaced by `shapeValue` and
`glassMode` as a quoted string), plus `iconSize` (the `fontSize` factor) and
`text` (the JSX overlay body), which are interpolated outside the `params`
object.  JavaScript number-to-source formatting is round-trip exact, so the
numeric literals are the numbers themselves. -/
structure ExportedLiterals where
  width : ℚ
  height : ℚ
  mouseX : ℚ
  mouseY : ℚ
  tintR : ℚ
  tintG : ℚ
  tintB : ℚ
  saturation : ℚ
  distortion : ℚ
  blur : ℚ
  iconColorR : ℚ
  iconColorG : ℚ
  iconColorB : ℚ
  glassMode : String
  shadowIntensity : ℚ
  shadowOffsetX : ℚ
  shadowOffsetY : ℚ
  shadowBlur : ℚ
  cornerRadius : ℚ
  chromaticAberration : ℚ
  shape : ℕ
  donutThickness : ℚ
  starPoints : ℚ
  starInnerRadius : ℚ
  iconSize : ℚ
  text : String
deriving DecidableEq

/-- The value substitution performed by `generateComponentCode` on a design's
`params` (the template-string interpolations `${params.width}`, …,
`${shapeValue}`, `'${params.glassMode}'`, `${params.iconSize}`,
`${params.text}`). -/
def generateComponentLiterals (p : ShaderParams) : ExportedLiterals where
  width := p.width
  height := p.height
  mouseX := p.mouseX
  mouseY := p.mouseY
  tintR := p.tintR
  tintG := p.tintG
  tintB := p.tintB
  saturation := p.saturation
  distortion := p.distortion
  blur := p.blur
  iconColorR := p.iconColorR
  iconColorG := p.iconColorG
  iconColorB := p.iconColorB
  glassMode := glassModeNameOf p.glassMode
  shadowIntensity := p.shadowIntensity
  shadowOffsetX := p.shadowOffsetX
  shadowOffsetY := p.shadowOffsetY
  shadowBlur := p.shadowBlur
  cornerRadius := p.cornerRadius
  chromaticAberration := p.chromaticAberration
  shape := shapeValue p.shape
  donutThickness := p.donutThickness
  starPoints := p.starPoints
  starInnerRadius := p.starInnerRadius
  iconSize := p.iconSize
  text := p.text

/-- Decode a shape name string back to its variant. -/
def shapeOfName (s : String) : Option ShapeKind :=
  if s = "rectangle" then some .rectangle
  else if s = "circle" then some .circle
  else if s = "star" then some .star
  else if s = "hexagon" then some .hexagon
  else if s = "donut" then some .donut
  else none

/-- Decode a glass-mode string back to its variant. -/
def glassModeOfName (s : String) : Option GlassMode :=
  if s = "light" then some .light
  else if s = "dark" then some .dark
  else none

/-- Modelled from the spec: the repository contains no importer for the
generated source, so the parse-back direction of the round-trip property
("exporting a Design's ParameterSet to source text and parsing the literal
values back must reproduce the original ParameterSet exactly") is modelled
as reading each interpolated literal and decoding the `shape` index through
the same name list the export used. -/
def parseBackParams (e : ExportedLiterals) : Option ShaderParams := do
  let nm ← shapeNameList.get? e.shape
  let sh ← shapeOfName nm
  let gm ← glassModeOfName e.glassMode
  return {
    width := e.width
    height := e.height
    mouseX := e.mouseX
    mouseY := e.mouseY
    tintR := e.tintR
    tintG := e.tintG
    tintB := e.tintB
    saturation := e.saturation
    distortion := e.distortion
    blur := e.blur
    text := e.text
    iconSize := e.iconSize
    iconColorR := e.iconColorR
    iconColorG := e.iconColorG
    iconColorB := e.iconColorB
    glassMode := gm
    shadowIntensity := e.shadowIntensity
    shadowOffsetX := e.shadowOffsetX
    shadowOffsetY := e.shadowOffsetY
    shadowBlur := e.shadowBlur
    cornerRadius := e.cornerRadius
    chromaticAberration := e.chromaticAberration
    shape := sh
    donutThickness := e.donutThickness
    starPoints := e.starPoints
    starInnerRadius := e.starInnerRadius }

/-- A persisted design record as `JSON.parse` hands it back: the load effect
performs no validation, so every field may be missing (`none`) in a partial
or malformed record. -/
structure RawDesign where
  id : Option String
  name : Option String
  params : Option ShaderParams
  backgroundUrl : Option String
  createdAt : Option ℤ
  updatedAt : Option ℤ
deriving DecidableEq

/-- A raw record is well-formed when every field of `SavedDesign` is
present. -/
def wellFormedRaw (r : RawDesign) : Bool :=
  r.id.isSome && r.name.isSome && r.params.isSome && r.backgroundUrl.isSome
    && r.createdAt.isSome && r.updatedAt.isSome

/-- The localStorage load effect of `SavedDesignsManager`:
`const saved = localStorage.getItem(STORAGE_KEY); if (saved) { try {
const designs = JSON.parse(saved); setSavedDesigns(designs); } catch ... }`.
`parseJson` abstracts `JSON.parse` (returning `none` when it throws);
`stored` is the `localStorage.getItem` result.  The designs state starts as
`[]` and is left unchanged when nothing is stored or parsing throws. -/
def loadSavedDesigns (parseJson : String → Option (List RawDesign))
    (stored : Option String) : List RawDesign :=
  match stored with
  | none => []
  | some s =>
    match parseJson s with
    | some designs => designs
    | none => []

/-- The `SavedDesign` interface (all fields present). -/
structure SavedDesign where
  id : String
  name : String
  params : ShaderParams
  backgroundUrl : String
  createdAt : ℤ
  updatedAt : ℤ
deriving DecidableEq

/-- Whitespace test for the trim model. -/
def isWhitespaceChar (c : Char) : Bool :=
  c = ' ' || c = '\t' || c = '\n' || c = '\r'

/-- JavaScript `String.prototype.trim`: strip leading and trailing
whitespace. -/
def jsTrim (s : String) : String :=
  ⟨((s.data.dropWhile isWhitespaceChar).reverse.dropWhile isWhitespaceChar).reverse⟩

/-- `handleSaveDesign`: rejects a blank name (`!designName.trim()`), else
prepends the new record (`setSavedDesigns(prev => [newDesign, ...prev])`).
`newId` stands for `Date.now().toString()` and `now` for `Date.now()`. -/
def handleSaveDesign (designName : String) (newId : String) (now : ℤ)
    (currentParams : ShaderParams) (currentBackgroundUrl : String)
    (prev : List SavedDesign) : List SavedDesign :=
  if jsTrim designName = "" then prev
  else
    { id := newId
      name := jsTrim designName
      params := currentParams
      backgroundUrl := currentBackgroundUrl
      createdAt := now
      updatedAt := now } :: prev

/-- `handleDeleteDesign`: `setSavedDesigns(prev => prev.filter(d => d.id !==
id))`. -/
def handleDeleteDesign (id : String) (designs : List SavedDesign) : List SavedDesign :=
  designs.filter (fun d => d.id != id)

/-- Modelled from the spec: the output the claim asserts for a pixel whose
glass mask is zero — the shadow-darkened background
`bg' = mix(bg, bg*(1-shadowMask), shadowMask)` with
`shadowMask = clamp(1 - shadowSdf/shadowBlur, 0, 1) * shadowIntensity`
(spec §4.5/§4.6), where `shadowSdf` is the shape SDF at
`centeredUV - shadowOffset`. -/
def specShadowedBackground (M : GMath) (u : Uniforms) (tex : Vec2 → Vec3)
    (vTexCoord : Vec2) : Option Vec3 := do
  let fragCoord : Vec2 := (vTexCoord.1 * u.resolution.1, vTexCoord.2 * u.resolution.2)
  let centeredUV : Vec2 := (fragCoord.1 - u.mouse.1, fragCoord.2 - u.mouse.2)
  let bg := tex vTexCoord
  let shadowSdf ← getShapeSDF M u
    (centeredUV.1 - u.shadowOffset.1, centeredUV.2 - u.shadowOffset.2)
  let s ← qdiv shadowSdf u.shadowBlur
  let shadowMask := qclamp (1 - s) 0 1 * u.shadowIntensity
  return v3mix bg (v3scale (1 - shadowMask) bg) shadowMask

/-- Per-variant reference: the SDF formula each shape name stands for
(rounded rectangle, circle, star, hexagon, donut), with the parameter
wiring the shader's dispatch gives that variant. -/
def variantFormula (M : GMath) (u : Uniforms) (s : ShapeKind) (pos : Vec2) :
    Option ℚ :=
  match s with
  | .rectangle => some (sdRoundedRect M pos (u.width, u.height) u.cornerRadius)
  | .circle => some (sdCircle M pos (min u.width u.height))
  | .star =>
    sdStar M pos (min u.width u.height * 0.8)
      (min u.width u.height * 0.8 * u.starInnerRadius) (qtrunc u.starPoints)
  | .hexagon => some (sdHexagon M pos (min u.width u.height * 0.8))
  | .donut => some (sdDonut M pos (min u.width u.height * 0.8) u.donutThickness)

/-- Integer square root by exhaustive scan (exact on perfect squares). -/
def isqrt (n : ℕ) : ℕ :=
  (List.range (n + 1)).foldl (fun acc k => if k * k ≤ n then k else acc) 0

/-- A concrete computable square root on `ℚ`: exact on squares of rationals
(hence agreeing with the real square root there), `0` elsewhere.  Used to
instantiate `GMath` for concrete evaluations, all of which only take square
roots of perfect squares. -/
def qsqrt (q : ℚ) : ℚ :=
  let ns := isqrt q.num.toNat
  let ds := isqrt q.den
  if 0 ≤ q.num ∧ ns * ns = q.num.toNat ∧ ds * ds = q.den then (ns : ℚ) / (ds : ℚ)
  else 0

/-- A concrete `GMath` instance for closed evaluations: the exact-on-squares
square root, and inert `exp`/`atan2` (no closed evaluation below ever
reaches them at a point whose value matters). -/
def qMath : GMath where
  sqrt := qsqrt
  exp := fun _ => 1
  atan2 := fun _ _ => 0

/-- A concrete `GMath` instance whose `atan2` returns a star tip angle on
the positive x-axis and a star midpoint angle on the positive y-axis
(matching the real `atan2` qualitatively at the two probe points used
below). -/
def starMath : GMath where
  sqrt := qsqrt
  exp := fun _ => 1
  atan2 := fun _ x => if x = 0 then PI / 5 else 0

/-- Concrete uniforms: a circle of radius 10 centered at the origin of a
1×1-resolution frame, with an intense shadow offset by (20, 0). -/
def u0 : Uniforms where
  resolution := (1, 1)
  mouse := (0, 0)
  width := 10
  height := 10
  tint := (1, 1, 1)
  saturation := 1
  distortion := 0
  blur := 0
  cornerRadius := 0
  chromaticAberration := 0
  shape := 1
  donutThickness := 0
  starPoints := 5
  starInnerRadius := 0.5
  shadowIntensity := 1
  shadowOffset := (20, 0)
  shadowBlur := 1
  glassMode := 0

/-- `u0` with distortion switched on. -/
def u1 : Uniforms := { u0 with distortion := 1 }

/-- `u0` with the star shape selected. -/
def u2 : Uniforms := { u0 with shape := 2 }

/-- A constant white background texture. -/
def tex0 : Vec2 → Vec3 := fun _ => (1, 1, 1)

/-- A probe pixel outside the circle of `u0` (distance 12 from center). -/
def vt0 : Vec2 := (12, 0)

/-- An arbitrary complete parameter snapshot. -/
def defaultShaderParams : ShaderParams where
  width := 200
  height := 150
  mouseX := 400
  mouseY := 300
  tintR := 1
  tintG := 1
  tintB := 1
  saturation := 1
  distortion := 0.5
  blur := 0.3
  text := "Aa"
  iconSize := 0.5
  iconColorR := 1
  iconColorG := 1
  iconColorB := 1
  glassMode := .light
  shadowIntensity := 0.4
  shadowOffsetX := 10
  shadowOffsetY := 10
  shadowBlur := 20
  cornerRadius := 24
  chromaticAberration := 0
  shape := .rectangle
  donutThickness := 0.3
  starPoints := 5
  starInnerRadius := 0.5

/-- A persisted record with every field missing (malformed). -/
def badRec : RawDesign :=
  ⟨none, none, none, none, none, none⟩

/-- A persisted record with every field present (well-formed). -/
def goodRec : RawDesign :=
  ⟨some "1700000000000", some "My Glass Design", some defaultShaderParams,
   some "background.png", some 1700000000000, some 1700000000000⟩

/-- A `JSON.parse` behaviour whose result is a two-record list, the first
malformed, the second well-formed (i.e. the stored string is a valid JSON
array holding one bad and one good record). -/
def parseStub : String → Option (List RawDesign) := fun _ => some [badRec, goodRec]

/-- Concrete saved designs for the delete scenario. -/
def savedA : SavedDesign :=
  ⟨"101", "first", defaultShaderParams, "a.png", 1, 1⟩

/-- Second concrete saved design. -/
def savedB : SavedDesign :=
  ⟨"102", "second", defaultShaderParams, "b.png", 2, 2⟩

theorem isqrt_zero : isqrt 0 = 0 := by decide

theorem isqrt_one : isqrt 1 = 1 := by decide

theorem qsqrt_144 : qsqrt 144 = 12 := by
  norm_num [qsqrt, Rat.num_ofNat, Rat.den_ofNat, show Int.toNat 144 = 144 from rfl,
    show isqrt 144 = 12 from by decide, isqrt_one]

theorem qsqrt_64 : qsqrt 64 = 8 := by
  norm_num [qsqrt, Rat.num_ofNat, Rat.den_ofNat, show Int.toNat 64 = 64 from rfl,
    show isqrt 64 = 8 from by decide, isqrt_one]

theorem qsqrt_4 : qsqrt 4 = 2 := by
  norm_num [qsqrt, Rat.num_ofNat, Rat.den_ofNat, show Int.toNat 4 = 4 from rfl,
    show isqrt 4 = 2 from by decide, isqrt_one]

theorem qsqrt_zero : qsqrt 0 = 0 := by
  norm_num [qsqrt, isqrt_zero, isqrt_one]

/-- Claim C9: `saturate(color, 1.0)` returns the color unchanged, and
`saturate(color, 0.0)` returns a gray with equal R, G, B components, each
equal to the luma `0.299R + 0.587G + 0.114B`. -/
theorem saturate_identity_and_grayscale (c : Vec3) :
    saturateColor c 1 = c
    ∧ (saturateColor c 0).1 = (saturateColor c 0).2.1
    ∧ (saturateColor c 0).2.1 = (saturateColor c 0).2.2
    ∧ (saturateColor c 0).1 = 0.299 * c.1 + 0.587 * c.2.1 + 0.114 * c.2.2 := by
  obtain ⟨r, g, b⟩ := c
  refine ⟨?_, by simp [saturateColor, v3mix, qmix], by simp [saturateColor, v3mix, qmix],
    by simp [saturateColor, v3mix, qmix]; ring⟩
  simp [saturateColor, v3mix, qmix]

/-- Claim C5: with `u_distortion = 0` the distortion block leaves the
sampling coordinate `distortedUV` exactly equal to `v_texCoord` for every
input point and every parameter set. -/
theorem distortion_zero_keeps_sampling_uv (M : GMath) (u : Uniforms)
    (centeredUV vTexCoord : Vec2) (normalizedInside : ℚ)
    (h : u.distortion = 0) :
    computeDistortedUV M u centeredUV vTexCoord normalizedInside = some vTexCoord := by
  simp [computeDistortedUV, h]

/-- Witness for C5 at a concrete input. -/
theorem distortion_zero_keeps_sampling_uv_witness :
    computeDistortedUV qMath u0 (0, 0) (0.5, 0.5) 1 = some (0.5, 0.5) :=
  distortion_zero_keeps_sampling_uv qMath u0 (0, 0) (0.5, 0.5) 1 rfl

/-- Claim C1 (code bug): with `blurAmount = 0`, `sampleBlurred` does not
return the unmodified texel — the weight exponent divides by
`2 * blurAmount * blurAmount = 0` on every tap, so the result is undefined
(`NaN` in GLSL), for every math instance, resolution, texture and uv. -/
theorem sampleBlurred_zero_blur_undefined (M : GMath) (res : Vec2)
    (tex : Vec2 → Vec3) (uv : Vec2) :
    sampleBlurred M res tex uv 0 = none := by
  have htap : ∀ acc : Vec3 × ℚ, blurTap M res tex uv 0 acc (-2, -2) = none := by
    intro acc
    simp only [blurTap, qdiv, mul_zero]
    split_ifs <;> simp
  simp [sampleBlurred, blurOffsets, List.foldlM_cons, htap]

/-- Claim C3 (amended): for every pixel whose glass mask is 0 (i.e.
`clamp(sdf, 0, 1) = 1`, equivalently `sdf ≥ 1`), `main` outputs the
unmodified background texel — the shadow block sits inside the
`boxMask > 0.0` branch, so no shadow darkening is applied to such pixels. -/
theorem mask_zero_outputs_plain_background (M : GMath) (u : Uniforms)
    (tex : Vec2 → Vec3) (vTexCoord : Vec2) (s : ℚ)
    (hsdf : getShapeSDF M u (vTexCoord.1 * u.resolution.1 - u.mouse.1,
      vTexCoord.2 * u.resolution.2 - u.mouse.2) = some s)
    (hmask : 1 ≤ s) (hh : u.height ≠ 0) :
    shaderMain M u tex vTexCoord = some (tex vTexCoord) := by
  have hcl : qclamp s 0 1 = 1 := by
    unfold qclamp
    rw [max_eq_left (le_trans zero_le_one hmask), min_eq_right hmask]
  simp [shaderMain, hsdf, qdiv, hh, hcl]

/-- Witness for the amended C3 at a concrete input. -/
theorem mask_zero_outputs_plain_background_witness :
    shaderMain qMath u0 tex0 vt0 = some (tex0 vt0) :=
  mask_zero_outputs_plain_background qMath u0 tex0 vt0 2
    (by norm_num [vt0, u0, getShapeSDF, sdCircle, vlength, qMath, qsqrt_144])
    (by norm_num) (by norm_num [u0])

/-- Counterexample to C3 as stated: at the pixel `vt0`, outside the glass
(`sdf = 2`, mask 0) but inside the offset shadow region, the shader outputs
the raw background `(1,1,1)` while the claimed shadow-darkened background is
`(0,0,0)`. -/
theorem mask_zero_shadow_counterexample :
    shaderMain qMath u0 tex0 vt0 = some (1, 1, 1)
    ∧ specShadowedBackground qMath u0 tex0 vt0 = some (0, 0, 0)
    ∧ shaderMain qMath u0 tex0 vt0 ≠ specShadowedBackground qMath u0 tex0 vt0 := by
  have h1 : getShapeSDF qMath u0 (12, 0) = some 2 := by
    norm_num [getShapeSDF, u0, sdCircle, vlength, qMath, qsqrt_144]
  have h2 : getShapeSDF qMath u0 (-8, 0) = some (-2) := by
    norm_num [getShapeSDF, u0, sdCircle, vlength, qMath, qsqrt_64]
  have hmain : shaderMain qMath u0 tex0 vt0 = some (1, 1, 1) := by
    norm_num [shaderMain, vt0, tex0, h1, qdiv, qclamp, max_def, min_def,
      show u0.resolution = (1, 1) from rfl, show u0.mouse = (0, 0) from rfl,
      show u0.height = (10 : ℚ) from rfl]
  have hspec : specShadowedBackground qMath u0 tex0 vt0 = some (0, 0, 0) := by
    norm_num [specShadowedBackground, vt0, tex0, h2, qdiv, qclamp, max_def,
      min_def, v3mix, v3scale, qmix, show u0.resolution = (1, 1) from rfl,
      show u0.mouse = (0, 0) from rfl, show u0.shadowOffset = ((20 : ℚ), (0 : ℚ)) from rfl,
      show u0.shadowBlur = (1 : ℚ) from rfl, show u0.shadowIntensity = (1 : ℚ) from rfl]
  refine ⟨hmain, hspec, ?_⟩
  rw [hmain, hspec]
  simp

/-- Claim C2 (code bug): at any pixel inside the glass where the
central-difference gradient of the shape SDF is the zero vector, the
distortion block computes `normalize(vec2(0.0))` — a division by zero whose
undefined value propagates into the final pixel — instead of the zero
displacement the claim requires. -/
theorem zero_gradient_distortion_undefined (M : GMath) (u : Uniforms)
    (tex : Vec2 → Vec3) (vTexCoord : Vec2) (s a b : ℚ)
    (hsqrt0 : M.sqrt 0 = 0)
    (hd : 0 < u.distortion)
    (hh : u.height ≠ 0)
    (hsdf : getShapeSDF M u (vTexCoord.1 * u.resolution.1 - u.mouse.1,
      vTexCoord.2 * u.resolution.2 - u.mouse.2) = some s)
    (hmask : s < 1)
    (hx1 : getShapeSDF M u (vTexCoord.1 * u.resolution.1 - u.mouse.1 + 2,
      vTexCoord.2 * u.resolution.2 - u.mouse.2) = some a)
    (hx2 : getShapeSDF M u (vTexCoord.1 * u.resolution.1 - u.mouse.1 - 2,
      vTexCoord.2 * u.resolution.2 - u.mouse.2) = some a)
    (hy1 : getShapeSDF M u (vTexCoord.1 * u.resolution.1 - u.mouse.1,
      vTexCoord.2 * u.resolution.2 - u.mouse.2 + 2) = some b)
    (hy2 : getShapeSDF M u (vTexCoord.1 * u.resolution.1 - u.mouse.1,
      vTexCoord.2 * u.resolution.2 - u.mouse.2 - 2) = some b) :
    shaderMain M u tex vTexCoord = none := by
  have hgrad : computeDistortedUV M u
      (vTexCoord.1 * u.resolution.1 - u.mouse.1,
       vTexCoord.2 * u.resolution.2 - u.mouse.2) vTexCoord (s / u.height + 1) = none := by
    simp only [computeDistortedUV, if_pos hd, hx1, hx2, hy1, hy2, Option.some_bind]
    have : (⟨a - a, b - b⟩ : Vec2) = (0, 0) := by simp
    simp [vnormalize, vlength, hsqrt0]
  have hm : max s 0 < 1 := max_lt hmask one_pos
  have hcl : qclamp s 0 1 = max s 0 := by
    unfold qclamp
    exact min_eq_left hm.le
  simp [shaderMain, glassBranch, hsdf, qdiv, hh, hcl, hm, hgrad]

/-- Witness for C2 at a concrete input: the center of the circle shape,
where all four central-difference taps are equal. -/
theorem zero_gradient_distortion_undefined_witness :
    shaderMain qMath u1 tex0 (0, 0) = none :=
  zero_gradient_distortion_undefined qMath u1 tex0 (0, 0) (-10) (-8) (-8)
    (by norm_num [qMath, qsqrt_zero])
    (by norm_num [u1, u0])
    (by norm_num [u1, u0])
    (by norm_num [u1, u0, getShapeSDF, sdCircle, vlength, qMath, qsqrt_zero])
    (by norm_num)
    (by norm_num [u1, u0, getShapeSDF, sdCircle, vlength, qMath, qsqrt_4])
    (by norm_num [u1, u0, getShapeSDF, sdCircle, vlength, qMath, qsqrt_4])
    (by norm_num [u1, u0, getShapeSDF, sdCircle, vlength, qMath, qsqrt_4])
    (by norm_num [u1, u0, getShapeSDF, sdCircle, vlength, qMath, qsqrt_4])

theorem someBind {α β : Type} (a : α) (f : α → Option β) : (some a >>= f) = f a := rfl

theorem noneBind {α β : Type} (f : α → Option β) : ((none : Option α) >>= f) = none := rfl

theorem segAngle_ne_zero : (2 * PI / 5 : ℚ) ≠ 0 := by
  norm_num [PI]

theorem sdStar_at_tip (M : GMath) (pos : Vec2) (outerR innerR : ℚ) (k : ℤ)
    (h : M.atan2 pos.2 pos.1 = (k : ℚ) * (2 * PI / 5)) :
    sdStar M pos outerR innerR 5 = some (vlength M pos - outerR) := by
  have e1 : qdiv (2 * PI) ((5 : ℤ) : ℚ) = some (2 * PI / 5) := by
    norm_num [qdiv]
  have e2 : qdiv ((k : ℚ) * (2 * PI / 5)) (2 * PI / 5) = some (k : ℚ) := by
    rw [qdiv, if_neg segAngle_ne_zero, mul_div_cancel_right₀ _ segAngle_ne_zero]
  have e3 : (⌊(k : ℚ) + 0.5⌋ : ℤ) = k := by
    rw [add_comm, Int.floor_add_int]
    norm_num
  simp only [sdStar, h, e1, someBind, e2, e3]
  have e4 : (k : ℚ) * (2 * PI / 5) - (k : ℚ) * (2 * PI / 5) = 0 := sub_self _
  rw [e4]
  have e5 : qdiv |(0 : ℚ)| (2 * PI / 5 * 0.5) = some 0 := by
    rw [abs_zero, qdiv, if_neg (by norm_num [PI])]
    norm_num
  rw [e5]
  simp [qmix]

theorem sdStar_at_midpoint (M : GMath) (pos : Vec2) (outerR innerR : ℚ) (k : ℤ)
    (h : M.atan2 pos.2 pos.1 = ((k : ℚ) + 0.5) * (2 * PI / 5)) :
    sdStar M pos outerR innerR 5 = some (vlength M pos - innerR) := by
  have e1 : qdiv (2 * PI) ((5 : ℤ) : ℚ) = some (2 * PI / 5) := by
    norm_num [qdiv]
  have e2 : qdiv (((k : ℚ) + 0.5) * (2 * PI / 5)) (2 * PI / 5)
      = some ((k : ℚ) + 0.5) := by
    rw [qdiv, if_neg segAngle_ne_zero, mul_div_cancel_right₀ _ segAngle_ne_zero]
  have e3 : (⌊(k : ℚ) + 0.5 + 0.5⌋ : ℤ) = k + 1 := by
    rw [show ((k : ℚ) + 0.5 + 0.5) = ((k + 1 : ℤ) : ℚ) by push_cast; ring,
      Int.floor_intCast]
  simp only [sdStar, h, e1, someBind, e2, e3]
  have e4 : ((k : ℚ) + 0.5) * (2 * PI / 5) - ((k + 1 : ℤ) : ℚ) * (2 * PI / 5)
      = -(2 * PI / 5 * 0.5) := by
    push_cast
    ring
  rw [e4]
  have e5 : qdiv |(-(2 * PI / 5 * 0.5) : ℚ)| (2 * PI / 5 * 0.5) = some 1 := by
    rw [abs_neg, abs_of_pos (by norm_num [PI]), qdiv, if_neg (by norm_num [PI]),
      div_self (by norm_num [PI])]
  rw [e5]
  simp [qmix]

/-- Claim C6: for the star shape (starPoints = 5, starInnerRadius = 0.5), at
any point whose `atan2` angle is one of the tip angles `k*(2π/5)` the SDF
equals the point radius minus the outer radius `0.8*min(width,height)`, and
at any point whose angle is one of the midpoint angles `(k+0.5)*(2π/5)` it
equals the point radius minus `outer*0.5`. -/
theorem star_tip_and_midpoint_radii (M : GMath) (u : Uniforms)
    (posT posM : Vec2) (kT kM : ℤ)
    (hshape : u.shape = 2) (hpts : u.starPoints = 5)
    (hinner : u.starInnerRadius = 0.5)
    (hT : M.atan2 posT.2 posT.1 = (kT : ℚ) * (2 * PI / 5))
    (hMid : M.atan2 posM.2 posM.1 = ((kM : ℚ) + 0.5) * (2 * PI / 5)) :
    getShapeSDF M u posT = some (vlength M posT - min u.width u.height * 0.8)
    ∧ getShapeSDF M u posM
      = some (vlength M posM - min u.width u.height * 0.8 * 0.5) := by
  have htr : qtrunc u.starPoints = 5 := by
    norm_num [qtrunc, hpts]
  constructor
  · rw [getShapeSDF, if_neg (by rw [hshape]; norm_num),
      if_neg (by rw [hshape]; norm_num), if_pos (by rw [hshape]; norm_num), htr]
    exact sdStar_at_tip M posT _ _ kT hT
  · rw [getShapeSDF, if_neg (by rw [hshape]; norm_num),
      if_neg (by rw [hshape]; norm_num), if_pos (by rw [hshape]; norm_num), htr]
    rw [hinner]
    exact sdStar_at_midpoint M posM _ _ kM hMid

/-- Witness for C6 at concrete probe points on the positive axes. -/
theorem star_tip_and_midpoint_radii_witness :
    getShapeSDF starMath u2 (1, 0)
      = some (vlength starMath (1, 0) - min u2.width u2.height * 0.8)
    ∧ getShapeSDF starMath u2 (0, 1)
      = some (vlength starMath (0, 1) - min u2.width u2.height * 0.8 * 0.5) :=
  star_tip_and_midpoint_radii starMath u2 (1, 0) (0, 1) 0 0 rfl rfl rfl
    (by norm_num [starMath]) (by norm_num [starMath, PI])

theorem shapeValue_rectangle : shapeValue .rectangle = 0 := rfl

theorem shapeValue_circle : shapeValue .circle = 1 := rfl

theorem shapeValue_star : shapeValue .star = 2 := rfl

theorem shapeValue_hexagon : shapeValue .hexagon = 3 := rfl

theorem shapeValue_donut : shapeValue .donut = 4 := rfl

/-- Claim C8: the export encodes each shape name as its index in
`['rectangle','circle','star','hexagon','donut']`, and the emitted shader's
`getShapeSDF` threshold dispatch maps that index back to the SDF formula of
the same variant. -/
theorem export_shape_dispatch (s : ShapeKind) (M : GMath) (u : Uniforms)
    (pos : Vec2) (h : u.shape = (shapeValue s : ℚ)) :
    getShapeSDF M u pos = variantFormula M u s pos := by
  cases s <;>
    norm_num [getShapeSDF, variantFormula, h, shapeValue_rectangle,
      shapeValue_circle, shapeValue_star, shapeValue_hexagon, shapeValue_donut]

/-- Witness for C8: the circle index (1) selects the circle SDF. -/
theorem export_shape_dispatch_witness :
    getShapeSDF qMath u0 (5, 5) = variantFormula qMath u0 .circle (5, 5) :=
  export_shape_dispatch .circle qMath u0 (5, 5) (by norm_num [u0, shapeValue_circle])

/-- Claim C7: exporting a design's `ShaderParams` to the generated source and
parsing the interpolated literal values back reproduces the original
parameter set exactly, including `donutThickness`, `starPoints` and
`starInnerRadius` regardless of the selected shape. -/
theorem export_roundtrip (p : ShaderParams) :
    parseBackParams (generateComponentLiterals p) = some p := by
  obtain ⟨w, hgt, mx, my, tr, tg, tb, sat, dis, bl, tx, ics, icr, icg, icb,
    gm, shi, sox, soy, shb, cr, ca, sh, dt, sp, sir⟩ := p
  cases sh <;> cases gm <;>
    simp [parseBackParams, generateComponentLiterals, shapeValue_rectangle,
      shapeValue_circle, shapeValue_star, shapeValue_hexagon, shapeValue_donut,
      shapeNameList, shapeOfName, glassModeOfName, glassModeNameOf, shapeNameOf,
      someBind]

/-- Claim C4 (amended): loading parses the whole stored string at once — on
success the parsed list is adopted verbatim (no per-record validation, so
malformed records are loaded, not skipped); on a parse failure no designs
are loaded at all and the session continues with the empty list. -/
theorem load_wholesale_or_abort (parse1 parse2 : String → Option (List RawDesign))
    (s1 s2 : String) (l : List RawDesign)
    (h1 : parse1 s1 = some l) (h2 : parse2 s2 = none) :
    loadSavedDesigns parse1 (some s1) = l
    ∧ loadSavedDesigns parse2 (some s2) = [] := by
  constructor <;> simp [loadSavedDesigns, h1, h2]

/-- Witness for the amended C4. -/
theorem load_wholesale_or_abort_witness :
    loadSavedDesigns parseStub (some "designs") = [badRec, goodRec]
    ∧ loadSavedDesigns (fun _ => none) (some "designs") = [] :=
  load_wholesale_or_abort parseStub (fun _ => none) "designs" "designs"
    [badRec, goodRec] rfl rfl

/-- Counterexample to C4 as stated: a stored list holding one malformed and
one well-formed record is adopted wholesale — the malformed record is not
skipped, so the loaded list differs from the claimed `[goodRec]`. -/
theorem load_no_per_record_skip_counterexample :
    wellFormedRaw badRec = false
    ∧ wellFormedRaw goodRec = true
    ∧ loadSavedDesigns parseStub (some "stored") = [badRec, goodRec]
    ∧ loadSavedDesigns parseStub (some "stored") ≠ [goodRec] := by
  refine ⟨rfl, rfl, rfl, ?_⟩
  simp [loadSavedDesigns, parseStub, badRec, goodRec]

theorem length_filter_partition {α : Type} (p : α → Bool) (l : List α) :
    (l.filter fun a => !(p a)).length + (l.filter p).length = l.length := by
  induction l with
  | nil => rfl
  | cons a t ih =>
    cases h : p a <;> simp [List.filter_cons, h] <;> omega

/-- Claim C10: saving with a non-blank name prepends exactly one new record
and leaves every previously saved design unchanged in its relative order;
deleting by id removes exactly the designs with that id (the remaining list
is a sublist of the original, contains no record with the deleted id, and
its length accounts for every record without that id). -/
theorem save_and_delete_list_spec (designName newId : String) (now : ℤ)
    (p : ShaderParams) (bg : String) (prev : List SavedDesign)
    (delId : String) (l : List SavedDesign)
    (h : ¬ jsTrim designName = "") :
    handleSaveDesign designName newId now p bg prev =
      { id := newId, name := jsTrim designName, params := p, backgroundUrl := bg,
        createdAt := now, updatedAt := now } :: prev
    ∧ (handleDeleteDesign delId l).Sublist l
    ∧ (handleDeleteDesign delId l).all (fun d => d.id != delId) = true
    ∧ (handleDeleteDesign delId l).length
        + (l.filter fun d => d.id == delId).length = l.length := by
  refine ⟨by rw [handleSaveDesign, if_neg h], List.filter_sublist _, ?_, ?_⟩
  · rw [List.all_eq_true]
    intro d hd
    exact (List.mem_filter.mp hd).2
  · exact length_filter_partition (fun d => d.id == delId) l

/-- Witness for C10 at concrete lists. -/
theorem save_and_delete_list_spec_witness :
    handleSaveDesign "A" "7" 3 defaultShaderParams "bg.png" [savedA] =
      { id := "7", name := jsTrim "A", params := defaultShaderParams,
        backgroundUrl := "bg.png", createdAt := 3, updatedAt := 3 } :: [savedA]
    ∧ (handleDeleteDesign "101" [savedA, savedB]).Sublist [savedA, savedB]
    ∧ (handleDeleteDesign "101" [savedA, savedB]).all (fun d => d.id != "101") = true
    ∧ (handleDeleteDesign "101" [savedA, savedB]).length
        + (([savedA, savedB]).filter fun d => d.id == "101").length
        = ([savedA, savedB] : List SavedDesign).length :=
  save_and_delete_list_spec "A" "7" 3 defaultShaderParams "bg.png" [savedA]
    "101" [savedA, savedB] (by decide)

end Glass
